import Mathlib

/-!
# Recurring Expense Pattern Detector — a shallow embedding

A shallow embedding of `SpendingTracker/Services/RecurringExpenseDetector.swift`.

Modelling conventions:
* Swift `Double` amounts, timestamps and scores become `ℚ` (exact arithmetic);
  a `Date` is its timestamp in seconds since the epoch, so `Date?` is `Option ℚ`.
* Core Data's `Expense` class exposes `title : String?`, `category : String?`,
  `date : Date?`, `amount : Double`, `isRecurring : Bool`; the embedding keeps
  those optionals.
* `Foundation.sqrt` on `Double` is an opaque platform primitive; the functions
  that use it take it as an explicit parameter `sq : ℚ → ℚ` (the theorems that
  depend on its value assume only `sq 0 = 0`).
* `Date()` ("now", the default a nil date falls back to while sorting) is an
  explicit parameter `now : ℚ`.
* `Calendar.current.date(byAdding:)` is modelled by a `Calendar` structure of
  total functions: for the units used here (day / month / year) the Foundation
  call does not fail.
* `UUID()` draws a value fresh against everything drawn before; the registry
  state carries a counter `nextId` and each draw takes and bumps it.
* The `@Published var detectedPatterns / suggestions` pair of the
  `RecurringExpenseDetector` class is the explicit `DetectorState` record, and
  the mutating methods become state-passing functions.
-/

namespace SpendingTracker

/-- The `Expense` record as the detector reads it (Core Data entity:
optional title, category and date; `amount` is a plain `Double`). -/
structure Expense where
  id : Nat
  amount : ℚ
  title : Option String
  category : Option String
  date : Option ℚ
  isRecurring : Bool
deriving DecidableEq

/-- `enum RecurringFrequency` of the source. -/
inductive RecurringFrequency where
  | daily
  | weekly
  | biweekly
  | monthly
  | quarterly
  | yearly
  | unknown
deriving DecidableEq

/-- `struct RecurringPattern` of the source. -/
structure RecurringPattern where
  id : Nat
  title : String
  category : String
  averageAmount : ℚ
  frequency : RecurringFrequency
  confidence : ℚ
  lastOccurrence : ℚ
  nextPredicted : Option ℚ
deriving DecidableEq

/-- `struct RecurringSuggestion` of the source (its `id = UUID()` is drawn
fresh at creation; here it is handed in by the registry's counter). -/
structure RecurringSuggestion where
  id : Nat
  expense : Expense
  pattern : RecurringPattern
  confidence : ℚ
deriving DecidableEq

/-- `Calendar.current.date(byAdding:value:to:)` for the three units the
source uses. Total: on the Gregorian calendar these additions never fail. -/
structure Calendar where
  addDays : ℤ → ℚ → ℚ
  addMonths : ℤ → ℚ → ℚ
  addYears : ℤ → ℚ → ℚ

/-- The Levenshtein recurrence of `levenshteinDistance` with an explicit
structural fuel argument, so that the definition computes by kernel
reduction.  The source fills a table `dp[i][j]` = distance between the first
`i` characters of `str1` and the first `j` characters of `str2`
(`dp[i][0] = i`, `dp[0][j] = j`, diagonal step on equal characters, otherwise
`1 + min(dp[i-1][j], dp[i][j-1], dp[i-1][j-1])`); this is that same
recurrence read off on suffix lists, with the three `min` arguments kept in
the source's order.  `levAux_irrel` shows the fuel is irrelevant once it
covers `s.length + t.length`, which `levenshteinDistance` always supplies. -/
def levAux : Nat → List Char → List Char → Nat
  | 0, _, _ => 0
  | _ + 1, [], t => t.length
  | _ + 1, s, [] => s.length
  | fuel + 1, a :: s, b :: t =>
    if a = b then
      levAux fuel s t
    else
      1 + min (levAux fuel s (b :: t)) (min (levAux fuel (a :: s) t) (levAux fuel s t))

/-- `levenshteinDistance(_:_:)` of the source (see `levAux`). -/
def levenshteinDistance (s t : List Char) : Nat :=
  levAux (s.length + t.length) s t

/-- `stringSimilarity(_:_:)` of the source: 1 when both strings are empty,
0 when exactly one is, otherwise the edit distance normalised by the longer
length. -/
def stringSimilarity (str1 str2 : String) : ℚ :=
  if str1 ≠ "" ∧ str2 ≠ "" then
    let longer := if str1.length > str2.length then str1 else str2
    let shorter := if str1.length > str2.length then str2 else str1
    let editDistance := levenshteinDistance shorter.toList longer.toList
    1 - (editDistance : ℚ) / (longer.length : ℚ)
  else if str1 = "" ∧ str2 = "" then 1 else 0

/-- `calculateSimilarity(_:_:)` of the source: the weighted sum of an amount
term (weight 0.4, `1` when both amounts are 0), a title term (weight 0.35,
nil titles read as `""`) and a category term (weight 0.25, plain equality of
the optional categories), divided by the total weight. -/
def calculateSimilarity (expense1 expense2 : Expense) : ℚ :=
  let amountWeight : ℚ := 0.4
  let amountDifference := |expense1.amount - expense2.amount|
  let maxAmount := max expense1.amount expense2.amount
  let amountSimilarity := if maxAmount > 0 then 1 - amountDifference / maxAmount else 1
  let titleWeight : ℚ := 0.35
  let titleSimilarity := stringSimilarity (expense1.title.getD "") (expense2.title.getD "")
  let categoryWeight : ℚ := 0.25
  let categorySimilarity : ℚ := if expense1.category = expense2.category then 1 else 0
  let similarityScore :=
    amountSimilarity * amountWeight + titleSimilarity * titleWeight
      + categorySimilarity * categoryWeight
  let totalWeight := amountWeight + titleWeight + categoryWeight
  if totalWeight > 0 then similarityScore / totalWeight else 0

/-- `findSimilarExpenses(to:in:)` of the source: the history entries other
than the trigger itself whose similarity to it reaches the 0.8 threshold. -/
def findSimilarExpenses (expense : Expense) (allExpenses : List Expense) : List Expense :=
  let threshold : ℚ := 0.8
  allExpenses.filter fun otherExpense =>
    decide (otherExpense.id ≠ expense.id ∧ calculateSimilarity expense otherExpense ≥ threshold)

/-- One step of the sort `allExpenses.sorted` performs in `detectPattern`:
insert `e` before the first element whose (nil-defaulted) date is strictly
later, which is the stable insertion the comparator
`{ ($0.date ?? Date()) < ($1.date ?? Date()) }` induces. -/
def insertByDate (now : ℚ) (e : Expense) : List Expense → List Expense
  | [] => [e]
  | x :: xs =>
    if e.date.getD now < x.date.getD now then e :: x :: xs else x :: insertByDate now e xs

/-- `allExpenses.sorted { ($0.date ?? Date()) < ($1.date ?? Date()) }` of the
source: a stable sort ascending by date, nil dates read as `now`. -/
def sortedByDate (now : ℚ) : List Expense → List Expense
  | [] => []
  | x :: xs => insertByDate now x (sortedByDate now xs)

/-- `calculateIntervals(_:)` of the source: the loop over `1..<count`
appending `current.date - previous.date` whenever both dates are present. -/
def calculateIntervals : List Expense → List ℚ
  | e1 :: e2 :: rest =>
    (match e1.date, e2.date with
      | some prevDate, some currentDate => [currentDate - prevDate]
      | _, _ => []) ++ calculateIntervals (e2 :: rest)
  | _ => []

/-- `determineFrequency(from:)` of the source: mean gap, variance,
`confidence = max 0 (1 - stdDev / mean)`, and the `switch` over the mean gap
in days (`0..<2` daily, `6...8` weekly, `13...17` biweekly, `28...32`
monthly, `88...95` quarterly, `360...370` yearly, default unknown).
`sq` stands for `Foundation.sqrt` (see the file comment). -/
def determineFrequency (sq : ℚ → ℚ) (intervals : List ℚ) : RecurringFrequency × ℚ :=
  if intervals.isEmpty then (.unknown, 0)
  else
    let averageInterval := intervals.sum / (intervals.length : ℚ)
    let dayInterval := averageInterval / (24 * 60 * 60)
    let variance :=
      (intervals.map fun x => (x - averageInterval) ^ 2).sum / (intervals.length : ℚ)
    let standardDeviation := sq variance
    let coefficientOfVariation := standardDeviation / averageInterval
    let confidence := max 0 (1 - coefficientOfVariation)
    let frequency : RecurringFrequency :=
      if 0 ≤ dayInterval ∧ dayInterval < 2 then .daily
      else if 6 ≤ dayInterval ∧ dayInterval ≤ 8 then .weekly
      else if 13 ≤ dayInterval ∧ dayInterval ≤ 17 then .biweekly
      else if 28 ≤ dayInterval ∧ dayInterval ≤ 32 then .monthly
      else if 88 ≤ dayInterval ∧ dayInterval ≤ 95 then .quarterly
      else if 360 ≤ dayInterval ∧ dayInterval ≤ 370 then .yearly
      else .unknown
    (frequency, confidence)

/-- `calculateAverageAmount(_:)` of the source. -/
def calculateAverageAmount (expenses : List Expense) : ℚ :=
  (expenses.map fun e => e.amount).sum / (expenses.length : ℚ)

/-- `predictNextOccurrence(from:frequency:)` of the source: nil without a
last dated expense, otherwise the last date advanced by one unit of the
frequency (1 / 7 / 14 days, 1 / 3 months, 1 year), nil for `unknown`. -/
def predictNextOccurrence (cal : Calendar) (expenses : List Expense)
    (frequency : RecurringFrequency) : Option ℚ :=
  match (expenses.getLast?).bind (fun e => e.date) with
  | none => none
  | some lastDate =>
    match frequency with
    | .daily => some (cal.addDays 1 lastDate)
    | .weekly => some (cal.addDays 7 lastDate)
    | .biweekly => some (cal.addDays 14 lastDate)
    | .monthly => some (cal.addMonths 1 lastDate)
    | .quarterly => some (cal.addMonths 3 lastDate)
    | .yearly => some (cal.addYears 1 lastDate)
    | .unknown => none

/-- `detectPattern(for:similarExpenses:)` of the source: merge
`[expense] + similarExpenses`, sort by date, require at least two elements,
run `determineFrequency`, require `confidence > 0.6`, and build the
`RecurringPattern` (its `id = UUID()` is drawn fresh; here the caller hands
the fresh value in as `freshId`). -/
def detectPattern (sq : ℚ → ℚ) (now : ℚ) (cal : Calendar) (freshId : Nat)
    (expense : Expense) (similarExpenses : List Expense) : Option RecurringPattern :=
  let allExpenses := expense :: similarExpenses
  let sortedExpenses := sortedByDate now allExpenses
  if sortedExpenses.length ≥ 2 then
    let intervals := calculateIntervals sortedExpenses
    let fc := determineFrequency sq intervals
    if fc.2 > 0.6 then
      some
        { id := freshId
          title := expense.title.getD "Unknown"
          category := expense.category.getD "Other"
          averageAmount := calculateAverageAmount sortedExpenses
          frequency := fc.1
          confidence := fc.2
          lastOccurrence := ((sortedExpenses.getLast?).bind (fun e => e.date)).getD now
          nextPredicted := predictNextOccurrence cal sortedExpenses fc.1 }
    else none
  else none

/-- The `@Published` state of the `RecurringExpenseDetector` class, plus the
counter that models `UUID()` freshness. -/
structure DetectorState where
  detectedPatterns : List RecurringPattern
  suggestions : List RecurringSuggestion
  nextId : Nat
deriving DecidableEq

/-- `analyzeExpenseForPatterns(_:allExpenses:)` of the source: find the
similar history entries; only when there are at least two of them (three
expenses counting the trigger) build a pattern; append it unless a stored
pattern already carries the same id; and, unless the trigger is already
flagged recurring, append a suggestion for it. -/
def analyzeExpenseForPatterns (sq : ℚ → ℚ) (now : ℚ) (cal : Calendar)
    (expense : Expense) (allExpenses : List Expense) (st : DetectorState) : DetectorState :=
  let similarExpenses := findSimilarExpenses expense allExpenses
  if similarExpenses.length ≥ 2 then
    match detectPattern sq now cal st.nextId expense similarExpenses with
    | some pattern =>
      { detectedPatterns :=
          if st.detectedPatterns.any fun p => p.id == pattern.id then st.detectedPatterns
          else st.detectedPatterns ++ [pattern]
        suggestions :=
          if expense.isRecurring then st.suggestions
          else
            st.suggestions ++
              [{ id := st.nextId + 1, expense := expense, pattern := pattern,
                 confidence := pattern.confidence }]
        nextId := st.nextId + 2 }
    | none => st
  else st

/-- `getSuggestedRecurring(from:)` of the source: the `expenses` argument is
never read; the result is the stored suggestions' expenses in order. -/
def getSuggestedRecurring (st : DetectorState) (expenses : List Expense) : List Expense :=
  st.suggestions.map fun s => s.expense

/-- `markAsRecurring(_:)` of the source: drop every suggestion whose expense
id matches, and flip the expense's `isRecurring` flag (the class mutates the
shared `Expense` object; here the updated record is returned to the caller). -/
def markAsRecurring (st : DetectorState) (expense : Expense) : DetectorState × Expense :=
  ({ st with suggestions := st.suggestions.filter fun s => !(s.expense.id == expense.id) },
   { expense with isRecurring := true })

/-- `dismissSuggestion(_:)` of the source: drop every suggestion whose id
matches the given one. -/
def dismissSuggestion (st : DetectorState) (suggestion : RecurringSuggestion) : DetectorState :=
  { st with suggestions := st.suggestions.filter fun s => !(s.id == suggestion.id) }

/-! ## Levenshtein toolkit: the fuel is irrelevant, the recurrence, symmetry -/

/-- Any fuel covering `s.length + t.length` computes the same value, so
`levAux` really is the fuel-free Levenshtein recurrence. -/
theorem levAux_irrel (f : Nat) :
    ∀ s t : List Char, s.length + t.length ≤ f →
      levAux f s t = levAux (s.length + t.length) s t := by
  induction f using Nat.strong_induction_on with
  | _ f ih =>
    intro s t hst
    match f, s, t with
    | 0, s, t =>
      have hs : s.length = 0 := by omega
      have ht : t.length = 0 := by omega
      rw [List.length_eq_zero.mp hs, List.length_eq_zero.mp ht]
      rfl
    | f + 1, [], t => cases t <;> rfl
    | f + 1, a :: s, [] => rfl
    | f + 1, a :: s, b :: t =>
      have hlen : s.length + t.length + 2 ≤ f + 1 := by
        simpa [Nat.add_assoc, Nat.add_left_comm, Nat.add_comm] using hst
      have h1 : s.length + (b :: t).length ≤ f := by simp only [List.length_cons]; omega
      have h2 : (a :: s).length + t.length ≤ f := by simp only [List.length_cons]; omega
      have h3 : s.length + t.length ≤ f := by omega
      have e1 := ih f (Nat.lt_succ_self f) s (b :: t) h1
      have e2 := ih f (Nat.lt_succ_self f) (a :: s) t h2
      have e3 := ih f (Nat.lt_succ_self f) s t h3
      have h1' : s.length + (b :: t).length ≤ s.length + t.length + 1 := by
        simp only [List.length_cons]; omega
      have h2' : (a :: s).length + t.length ≤ s.length + t.length + 1 := by
        simp only [List.length_cons]; omega
      have h3' : s.length + t.length ≤ s.length + t.length + 1 := by omega
      have e1' := ih (s.length + t.length + 1) (by omega) s (b :: t) h1'
      have e2' := ih (s.length + t.length + 1) (by omega) (a :: s) t h2'
      have e3' := ih (s.length + t.length + 1) (by omega) s t h3'
      show levAux (f + 1) (a :: s) (b :: t) = levAux ((a :: s).length + (b :: t).length) (a :: s) (b :: t)
      have hL : (a :: s).length + (b :: t).length = (s.length + t.length + 1) + 1 := by
        simp only [List.length_cons]; omega
      rw [hL]
      show (if a = b then levAux f s t
          else 1 + min (levAux f s (b :: t)) (min (levAux f (a :: s) t) (levAux f s t))) =
        (if a = b then levAux (s.length + t.length + 1) s t
          else 1 + min (levAux (s.length + t.length + 1) s (b :: t))
            (min (levAux (s.length + t.length + 1) (a :: s) t)
              (levAux (s.length + t.length + 1) s t)))
      rw [e1, e2, e3, e1', e2', e3']

theorem levenshteinDistance_nil_left (t : List Char) :
    levenshteinDistance [] t = t.length := by
  cases t <;> rfl

theorem levenshteinDistance_nil_right (s : List Char) :
    levenshteinDistance s [] = s.length := by
  cases s <;> simp [levenshteinDistance, levAux]

/-- The source's recurrence, fuel-free. -/
theorem levenshteinDistance_cons_cons (a b : Char) (s t : List Char) :
    levenshteinDistance (a :: s) (b :: t) =
      if a = b then levenshteinDistance s t
      else
        1 + min (levenshteinDistance s (b :: t))
          (min (levenshteinDistance (a :: s) t) (levenshteinDistance s t)) := by
  show levAux (s.length + 1 + (t.length + 1)) (a :: s) (b :: t) = _
  have hL : s.length + 1 + (t.length + 1) = (s.length + t.length + 1) + 1 := by omega
  rw [hL]
  show (if a = b then levAux (s.length + t.length + 1) s t
      else 1 + min (levAux (s.length + t.length + 1) s (b :: t))
        (min (levAux (s.length + t.length + 1) (a :: s) t)
          (levAux (s.length + t.length + 1) s t))) = _
  rw [levAux_irrel (s.length + t.length + 1) s t (by omega),
    levAux_irrel (s.length + t.length + 1) s (b :: t) (by simp only [List.length_cons]; omega),
    levAux_irrel (s.length + t.length + 1) (a :: s) t (by simp only [List.length_cons]; omega)]
  rfl

theorem levenshteinDistance_self (s : List Char) : levenshteinDistance s s = 0 := by
  induction s with
  | nil => rfl
  | cons a s ih => rw [levenshteinDistance_cons_cons, if_pos rfl, ih]

theorem levenshteinDistance_comm (s : List Char) :
    ∀ t : List Char, levenshteinDistance s t = levenshteinDistance t s := by
  induction s with
  | nil =>
    intro t
    rw [levenshteinDistance_nil_left, levenshteinDistance_nil_right]
  | cons a s ihs =>
    intro t
    induction t with
    | nil => rw [levenshteinDistance_nil_left, levenshteinDistance_nil_right]
    | cons b t iht =>
      rw [levenshteinDistance_cons_cons, levenshteinDistance_cons_cons]
      by_cases hab : a = b
      · rw [if_pos hab, if_pos hab.symm, ihs]
      · rw [if_neg hab, if_neg (Ne.symm hab), ihs (b :: t), iht, ihs t,
          Nat.min_left_comm]

end SpendingTracker

namespace SpendingTracker

/-! ## String similarity lemmas -/

theorem stringSimilarity_self (s : String) : stringSimilarity s s = 1 := by
  by_cases hs : s = ""
  · subst hs; simp [stringSimilarity]
  · simp [stringSimilarity, hs, levenshteinDistance_self]

theorem stringSimilarity_comm (s t : String) :
    stringSimilarity s t = stringSimilarity t s := by
  by_cases hs : s = ""
  · by_cases ht : t = ""
    · subst hs; subst ht; rfl
    · subst hs; simp [stringSimilarity, ht]
  · by_cases ht : t = ""
    · subst ht; simp [stringSimilarity, hs]
    · simp only [stringSimilarity]
      rw [if_pos (show s ≠ "" ∧ t ≠ "" from ⟨hs, ht⟩),
        if_pos (show t ≠ "" ∧ s ≠ "" from ⟨ht, hs⟩)]
      rcases lt_trichotomy s.length t.length with h | h | h
      · rw [if_neg (by omega : ¬ s.length > t.length),
          if_neg (by omega : ¬ s.length > t.length),
          if_pos (by omega : t.length > s.length),
          if_pos (by omega : t.length > s.length)]
      · rw [if_neg (by omega : ¬ s.length > t.length),
          if_neg (by omega : ¬ s.length > t.length),
          if_neg (by omega : ¬ t.length > s.length),
          if_neg (by omega : ¬ t.length > s.length),
          levenshteinDistance_comm, h]
      · rw [if_pos (by omega : s.length > t.length),
          if_pos (by omega : s.length > t.length),
          if_neg (by omega : ¬ t.length > s.length),
          if_neg (by omega : ¬ t.length > s.length)]

end SpendingTracker

namespace SpendingTracker

/-! ## Similarity scorer lemmas -/

theorem calculateSimilarity_comm (a b : Expense) :
    calculateSimilarity a b = calculateSimilarity b a := by
  simp only [calculateSimilarity]
  have hcat : (if a.category = b.category then (1 : ℚ) else 0)
      = (if b.category = a.category then (1 : ℚ) else 0) := by
    by_cases h : a.category = b.category
    · rw [if_pos h, if_pos h.symm]
    · rw [if_neg h, if_neg fun e => h e.symm]
  rw [abs_sub_comm, max_comm, stringSimilarity_comm, hcat]

theorem calculateSimilarity_eq_one (a b : Expense) (ham : a.amount = b.amount)
    (hti : a.title.getD "" = b.title.getD "") (hca : a.category = b.category) :
    calculateSimilarity a b = 1 := by
  norm_num [calculateSimilarity, ham, hti, hca, stringSimilarity_self, max_self]

/-! ## Sorting lemmas -/

theorem mem_insertByDate (now : ℚ) (e x : Expense) (l : List Expense) :
    x ∈ insertByDate now e l ↔ x = e ∨ x ∈ l := by
  induction l with
  | nil => simp [insertByDate]
  | cons y l ih =>
    simp only [insertByDate]
    split
    · simp [List.mem_cons]
    · simp only [List.mem_cons, ih]
      tauto

theorem mem_sortedByDate (now : ℚ) (x : Expense) (l : List Expense) :
    x ∈ sortedByDate now l ↔ x ∈ l := by
  induction l with
  | nil => simp [sortedByDate]
  | cons y l ih => simp [sortedByDate, mem_insertByDate, ih]

theorem length_insertByDate (now : ℚ) (e : Expense) (l : List Expense) :
    (insertByDate now e l).length = l.length + 1 := by
  induction l with
  | nil => rfl
  | cons y l ih =>
    simp only [insertByDate]
    split
    · simp
    · simp [ih]

theorem length_sortedByDate (now : ℚ) (l : List Expense) :
    (sortedByDate now l).length = l.length := by
  induction l with
  | nil => rfl
  | cons y l ih => simp [sortedByDate, length_insertByDate, ih]

end SpendingTracker

namespace SpendingTracker

/-! ## Concrete records used by counterexamples and witnesses -/

/-- An all-empty expense: amount 0, empty title, no category. -/
def blankA : Expense := ⟨0, 0, some "", none, some 0, false⟩

/-- A second all-empty expense with a distinct id. -/
def blankB : Expense := ⟨1, 0, some "", none, some 86400, false⟩

/-- An all-empty expense whose optional fields are all `none`. -/
def blankC : Expense := ⟨2, 0, none, none, none, true⟩

/-- An expense with a missing category. -/
def catA : Expense := ⟨0, 5, some "Coffee", none, some 0, false⟩

/-- Like `catA` but carrying the explicit category "Other". -/
def catB : Expense := ⟨1, 5, some "Coffee", some "Other", some 86400, false⟩

/-! ## The claims -/

/-- C7: for every pair of expenses `a`, `b`,
`similarity(a, b) = similarity(b, a)`. -/
theorem similarity_symmetric_C7 (a b : Expense) :
    calculateSimilarity a b = calculateSimilarity b a :=
  calculateSimilarity_comm a b

/-- C8: dismissing twice equals dismissing once; dismissing an id no stored
suggestion carries leaves the whole state unchanged; dismissing never
removes a stored pattern. -/
theorem dismiss_idempotent_noop_C8 (st : DetectorState) (sugg : RecurringSuggestion) :
    dismissSuggestion (dismissSuggestion st sugg) sugg = dismissSuggestion st sugg
    ∧ ((∀ s ∈ st.suggestions, s.id ≠ sugg.id) → dismissSuggestion st sugg = st)
    ∧ (dismissSuggestion st sugg).detectedPatterns = st.detectedPatterns := by
  refine ⟨?_, ?_, rfl⟩
  · simp only [dismissSuggestion]
    congr 1
    rw [List.filter_filter]
    simp
  · intro h
    simp only [dismissSuggestion]
    rw [List.filter_eq_self.mpr]
    intro s hs
    simpa using h s hs

/-- C9: promoting an expense removes every stored suggestion referencing it,
keeps every other suggestion, reports `isRecurring = true` back to the
caller, and leaves the stored patterns unchanged. -/
theorem promote_removes_suggestions_C9 (st : DetectorState) (e : Expense) :
    (∀ s ∈ (markAsRecurring st e).1.suggestions, s.expense.id ≠ e.id)
    ∧ (∀ s ∈ st.suggestions, s.expense.id ≠ e.id → s ∈ (markAsRecurring st e).1.suggestions)
    ∧ ((markAsRecurring st e).2).isRecurring = true
    ∧ (markAsRecurring st e).1.detectedPatterns = st.detectedPatterns := by
  refine ⟨?_, ?_, rfl, rfl⟩
  · intro s hs
    simp only [markAsRecurring, List.mem_filter] at hs
    simpa using hs.2
  · intro s hs hne
    simp only [markAsRecurring, List.mem_filter]
    exact ⟨hs, by simpa using hne⟩

/-- C10: `getSuggestedRecurring` never reads its `expenses` argument: any
two argument lists give the identical result, the stored suggestions'
expenses in insertion order. -/
theorem getSuggestedRecurring_ignores_argument_C10 (st : DetectorState)
    (es1 es2 : List Expense) :
    getSuggestedRecurring st es1 = getSuggestedRecurring st es2
    ∧ getSuggestedRecurring st es1 = st.suggestions.map fun s => s.expense :=
  ⟨rfl, rfl⟩

/-- C3 counterexample: on the all-empty pair (`amount` 0 on both sides,
empty titles, missing categories) the code returns similarity 1, not the
claimed 0 — every degenerate term is defined as 1. -/
theorem similarity_blank_pair_counterexample_C3 :
    calculateSimilarity blankA blankB = 1 ∧ calculateSimilarity blankA blankB ≠ 0 := by
  have h : calculateSimilarity blankA blankB = 1 :=
    calculateSimilarity_eq_one blankA blankB rfl rfl rfl
  refine ⟨h, ?_⟩
  rw [h]
  norm_num

/-- C3 (amended): for every pair of expenses in which all three compared
fields are empty (both amounts 0, both titles empty, both categories
missing), the similarity is 1.0 — each degenerate term is defined as 1, so
such a pair always matches. -/
theorem similarity_blank_pair_C3 (a b : Expense) (ham : a.amount = 0) (hbm : b.amount = 0)
    (hta : a.title.getD "" = "") (htb : b.title.getD "" = "")
    (hca : a.category = none) (hcb : b.category = none) :
    calculateSimilarity a b = 1 :=
  calculateSimilarity_eq_one a b (ham.trans hbm.symm) (hta.trans htb.symm)
    (hca.trans hcb.symm)

/-- C3 witness: the amended statement at a concrete all-empty pair. -/
theorem similarity_blank_pair_witness_C3 : calculateSimilarity blankA blankC = 1 :=
  similarity_blank_pair_C3 blankA blankC rfl rfl rfl rfl rfl rfl

end SpendingTracker

namespace SpendingTracker

/-- The similarity C4's sentence describes: identical to the source's
`calculateSimilarity` except that a missing category is replaced by the
literal category "Other" before the (case-sensitive) comparison.  Written
from the claim's words, to be compared with the code. -/
def calculateSimilaritySpecWordsC4 (expense1 expense2 : Expense) : ℚ :=
  let amountWeight : ℚ := 0.4
  let amountDifference := |expense1.amount - expense2.amount|
  let maxAmount := max expense1.amount expense2.amount
  let amountSimilarity := if maxAmount > 0 then 1 - amountDifference / maxAmount else 1
  let titleWeight : ℚ := 0.35
  let titleSimilarity := stringSimilarity (expense1.title.getD "") (expense2.title.getD "")
  let categoryWeight : ℚ := 0.25
  let categorySimilarity : ℚ :=
    if expense1.category.getD "Other" = expense2.category.getD "Other" then 1 else 0
  let similarityScore :=
    amountSimilarity * amountWeight + titleSimilarity * titleWeight
      + categorySimilarity * categoryWeight
  let totalWeight := amountWeight + titleWeight + categoryWeight
  if totalWeight > 0 then similarityScore / totalWeight else 0

/-- The amount and title weighted terms of `calculateSimilarity`, exactly as
the source computes them (used to isolate the category term's contribution). -/
def amountTitleScore (expense1 expense2 : Expense) : ℚ :=
  let amountDifference := |expense1.amount - expense2.amount|
  let maxAmount := max expense1.amount expense2.amount
  let amountSimilarity := if maxAmount > 0 then 1 - amountDifference / maxAmount else 1
  let titleSimilarity := stringSimilarity (expense1.title.getD "") (expense2.title.getD "")
  amountSimilarity * 0.4 + titleSimilarity * 0.35

/-- C4 counterexample: a missing category against the explicit category
"Other" (equal amounts and titles otherwise).  The claim's reading predicts
similarity 1 (category term 1.0 after the None→"Other" substitution);
the code yields 3/4 — its category term substitutes nothing and
contributes 0 here. -/
theorem category_term_counterexample_C4 :
    calculateSimilaritySpecWordsC4 catA catB = 1
    ∧ calculateSimilarity catA catB = 3 / 4
    ∧ calculateSimilarity catA catB ≠ calculateSimilaritySpecWordsC4 catA catB := by
  have h1 : calculateSimilaritySpecWordsC4 catA catB = 1 := by
    norm_num [calculateSimilaritySpecWordsC4, catA, catB, stringSimilarity_self]
  have h2 : calculateSimilarity catA catB = 3 / 4 := by
    norm_num [calculateSimilarity, catA, catB, stringSimilarity_self]
    simp
  refine ⟨h1, h2, ?_⟩
  rw [h1, h2]
  norm_num

/-- C4 (amended): the category term (weight 0.25) contributes 1.0 exactly
when the two optional categories are equal as stored — case-sensitive, with
no substitution for a missing value (two missing categories are equal; a
missing category against the explicit category "Other" contributes 0.0). -/
theorem category_term_C4 (a b : Expense) :
    calculateSimilarity a b
      = amountTitleScore a b + (if a.category = b.category then (0.25 : ℚ) else 0)
    ∧ (a.category = none → b.category = some "Other" →
        calculateSimilarity a b = amountTitleScore a b) := by
  have hmain : calculateSimilarity a b
      = amountTitleScore a b + (if a.category = b.category then (0.25 : ℚ) else 0) := by
    simp only [calculateSimilarity, amountTitleScore]
    rw [if_pos (show (0.4 : ℚ) + 0.35 + 0.25 > 0 by norm_num)]
    by_cases h : a.category = b.category
    · rw [if_pos h, if_pos h]
      ring
    · rw [if_neg h, if_neg h]
      ring
  refine ⟨hmain, fun h1 h2 => ?_⟩
  rw [hmain, if_neg (by rw [h1, h2]; simp)]
  ring

end SpendingTracker

namespace SpendingTracker

/-- The frequency bucketing exactly as C5's sentence lists it, as a function
of the mean gap in days: `[0,2)` daily, `[6,8]` weekly, `[13,17]` biweekly,
`[28,32]` monthly, `[88,95]` quarterly, `[360,370]` yearly, anything else
(the uncovered gaps included) unknown.  Written from the claim's words, to
be compared with the code. -/
def frequencyBucketSpec (d : ℚ) : RecurringFrequency :=
  if 0 ≤ d ∧ d < 2 then .daily
  else if 6 ≤ d ∧ d ≤ 8 then .weekly
  else if 13 ≤ d ∧ d ≤ 17 then .biweekly
  else if 28 ≤ d ∧ d ≤ 32 then .monthly
  else if 88 ≤ d ∧ d ≤ 95 then .quarterly
  else if 360 ≤ d ∧ d ≤ 370 then .yearly
  else .unknown

/-- C5: on every nonempty gap list, the analyzer's frequency component is the
spec's bucket function applied to the mean gap converted to days — whatever
the platform square root does. -/
theorem frequency_buckets_C5 (sq : ℚ → ℚ) (gaps : List ℚ) (h : gaps ≠ []) :
    (determineFrequency sq gaps).1
      = frequencyBucketSpec (gaps.sum / (gaps.length : ℚ) / 86400) := by
  simp only [determineFrequency, frequencyBucketSpec]
  rw [if_neg (by simpa using h)]
  norm_num

/-- C5 witness: a single 7-day gap lands in the weekly bucket. -/
theorem frequency_buckets_witness_C5 :
    (determineFrequency (fun x => x) [604800]).1
        = frequencyBucketSpec ([(604800 : ℚ)].sum / (([(604800 : ℚ)].length : ℚ)) / 86400)
    ∧ (determineFrequency (fun x => x) [604800]).1 = RecurringFrequency.weekly := by
  refine ⟨frequency_buckets_C5 (fun x => x) [604800] (by simp), ?_⟩
  norm_num [determineFrequency]

end SpendingTracker

namespace SpendingTracker

/-- Advancing a date by exactly one unit of the classified frequency (1 day /
7 days / 14 days / 1 calendar month / 3 calendar months / 1 calendar year,
nothing for `unknown`), as C6's sentence states it.  Written from the
claim's words, to be compared with the code's `predictNextOccurrence`. -/
def advanceOneUnit (cal : Calendar) (frequency : RecurringFrequency) (d : ℚ) : Option ℚ :=
  match frequency with
  | .daily => some (cal.addDays 1 d)
  | .weekly => some (cal.addDays 7 d)
  | .biweekly => some (cal.addDays 14 d)
  | .monthly => some (cal.addMonths 1 d)
  | .quarterly => some (cal.addMonths 3 d)
  | .yearly => some (cal.addYears 1 d)
  | .unknown => none

/-- C6: every pattern `detectPattern` builds from dated expenses predicts its
next occurrence exactly one frequency unit after its last occurrence, and
predicts nothing exactly when the frequency is `unknown`. -/
theorem nextPredicted_one_unit_C6 (sq : ℚ → ℚ) (now : ℚ) (cal : Calendar) (freshId : Nat)
    (e : Expense) (similar : List Expense) (p : RecurringPattern)
    (hdates : ∀ x ∈ e :: similar, (x.date).isSome = true)
    (hp : detectPattern sq now cal freshId e similar = some p) :
    p.nextPredicted = advanceOneUnit cal p.frequency p.lastOccurrence
    ∧ (p.nextPredicted = none ↔ p.frequency = RecurringFrequency.unknown) := by
  have hlen : (sortedByDate now (e :: similar)).length = similar.length + 1 := by
    rw [length_sortedByDate]; rfl
  have hLne : sortedByDate now (e :: similar) ≠ [] := by
    intro hnil
    rw [hnil] at hlen
    simp at hlen
  have hlast : (sortedByDate now (e :: similar)).getLast? =
      some ((sortedByDate now (e :: similar)).getLast hLne) :=
    List.getLast?_eq_getLast_of_ne_nil hLne
  have hmem : (sortedByDate now (e :: similar)).getLast hLne ∈ e :: similar :=
    (mem_sortedByDate now _ (e :: similar)).mp (List.getLast_mem hLne)
  obtain ⟨d, hdate⟩ :=
    Option.isSome_iff_exists.mp (hdates ((sortedByDate now (e :: similar)).getLast hLne) hmem)
  simp only [detectPattern] at hp
  by_cases h2 : (sortedByDate now (e :: similar)).length ≥ 2
  case neg =>
    rw [if_neg h2] at hp
    exact absurd hp (by simp)
  rw [if_pos h2] at hp
  by_cases hc :
    (determineFrequency sq (calculateIntervals (sortedByDate now (e :: similar)))).2 > 0.6
  case neg =>
    rw [if_neg hc] at hp
    exact absurd hp (by simp)
  rw [if_pos hc] at hp
  obtain rfl := Option.some.inj hp
  have hbind : ((sortedByDate now (e :: similar)).getLast?).bind (fun x => x.date) = some d := by
    rw [hlast]
    simpa using hdate
  have hmain :
      predictNextOccurrence cal (sortedByDate now (e :: similar))
          (determineFrequency sq (calculateIntervals (sortedByDate now (e :: similar)))).1
        = advanceOneUnit cal
            (determineFrequency sq (calculateIntervals (sortedByDate now (e :: similar)))).1
            ((((sortedByDate now (e :: similar)).getLast?).bind (fun x => x.date)).getD now) := by
    rw [predictNextOccurrence, hbind]
    cases (determineFrequency sq (calculateIntervals (sortedByDate now (e :: similar)))).1 <;> rfl
  refine ⟨hmain, ?_⟩
  rw [hmain]
  cases (determineFrequency sq (calculateIntervals (sortedByDate now (e :: similar)))).1 <;>
    simp [advanceOneUnit]

end SpendingTracker

namespace SpendingTracker

/-! ## The concrete Netflix scenario (claims C1, C2, and C6's witness) -/

/-- A stand-in for the platform square root; only its value at 0 matters in
the zero-variance scenarios below. -/
def sqZero : ℚ → ℚ := fun _ => 0

/-- A concrete calendar on rational timestamps: 86400-second days,
30-day months, 365-day years. -/
def calFixed : Calendar :=
  ⟨fun n d => d + 86400 * n, fun n d => d + 2592000 * n, fun n d => d + 31536000 * n⟩

/-- "Netflix" expense at day 0. -/
def netflix0 : Expense := ⟨10, 93, some "Netflix", some "Entertainment", some 0, false⟩

/-- "Netflix" expense 30 days later. -/
def netflix1 : Expense := ⟨11, 93, some "Netflix", some "Entertainment", some 2592000, false⟩

/-- "Netflix" expense 60 days in. -/
def netflix2 : Expense := ⟨12, 93, some "Netflix", some "Entertainment", some 5184000, false⟩

/-- The empty registry. -/
def st0 : DetectorState := ⟨[], [], 0⟩

/-- The pattern the Netflix trio produces, parametrised by the fresh id the
registry hands to `detectPattern`. -/
def netflixPatternAt (freshId : Nat) : RecurringPattern :=
  ⟨freshId, "Netflix", "Entertainment", 93, .monthly, 1, 5184000, some 7776000⟩

theorem findSimilar_netflix3 :
    findSimilarExpenses netflix2 [netflix0, netflix1, netflix2] = [netflix0, netflix1] := by
  have s0 : calculateSimilarity netflix2 netflix0 = 1 :=
    calculateSimilarity_eq_one _ _ rfl rfl rfl
  have s1 : calculateSimilarity netflix2 netflix1 = 1 :=
    calculateSimilarity_eq_one _ _ rfl rfl rfl
  simp only [findSimilarExpenses, List.filter_cons, List.filter_nil, s0, s1]
  norm_num [netflix0, netflix1, netflix2]

theorem findSimilar_netflix2 :
    findSimilarExpenses netflix1 [netflix0, netflix1] = [netflix0] := by
  have s0 : calculateSimilarity netflix1 netflix0 = 1 :=
    calculateSimilarity_eq_one _ _ rfl rfl rfl
  simp only [findSimilarExpenses, List.filter_cons, List.filter_nil, s0]
  norm_num [netflix0, netflix1]

theorem sorted_netflix :
    sortedByDate 0 [netflix2, netflix0, netflix1] = [netflix0, netflix1, netflix2] := by
  norm_num [sortedByDate, insertByDate, netflix0, netflix1, netflix2]

theorem intervals_netflix :
    calculateIntervals [netflix0, netflix1, netflix2] = [2592000, 2592000] := by
  norm_num [calculateIntervals, netflix0, netflix1, netflix2]

theorem freq_netflix :
    determineFrequency sqZero [2592000, 2592000] = (RecurringFrequency.monthly, 1) := by
  norm_num [determineFrequency, sqZero]

theorem detectPattern_netflix (i : Nat) :
    detectPattern sqZero 0 calFixed i netflix2 [netflix0, netflix1]
      = some (netflixPatternAt i) := by
  simp only [detectPattern, sorted_netflix, intervals_netflix, freq_netflix]
  rw [if_pos (by norm_num : ([netflix0, netflix1, netflix2] : List Expense).length ≥ 2),
    if_pos (by norm_num : (1 : ℚ) > 0.6)]
  simp only [netflixPatternAt, Option.some.injEq]
  refine RecurringPattern.mk.injEq .. |>.mpr ?_ |> fun h => h
  norm_num [netflix0, netflix1, netflix2, calculateAverageAmount, predictNextOccurrence, calFixed]

end SpendingTracker

namespace SpendingTracker

/-- One `analyze` call on the Netflix trio, from any registry state whose
stored patterns do not carry the id about to be drawn: it stores the built
pattern and appends a suggestion for the trigger. -/
theorem analyze_netflix_step (st : DetectorState)
    (hany : ∀ x ∈ st.detectedPatterns, ¬x.id = st.nextId) :
    analyzeExpenseForPatterns sqZero 0 calFixed netflix2 [netflix0, netflix1, netflix2] st
      = { detectedPatterns := st.detectedPatterns ++ [netflixPatternAt st.nextId],
          suggestions := st.suggestions
            ++ [{ id := st.nextId + 1, expense := netflix2,
                  pattern := netflixPatternAt st.nextId, confidence := 1 }],
          nextId := st.nextId + 2 } := by
  simp only [analyzeExpenseForPatterns, findSimilar_netflix3]
  rw [if_pos (by norm_num : ([netflix0, netflix1] : List Expense).length ≥ 2),
    detectPattern_netflix st.nextId]
  norm_num [netflix2, netflixPatternAt]
  exact hany

/-- C1 counterexample: two "Netflix" expenses 30 days apart, `analyze` on the
second with the first as the only history — the code's guard asks for at
least two similar history entries (three expenses in all), so the registry
is left untouched and no suggestion is produced. -/
theorem analyze_two_netflix_counterexample_C1 :
    analyzeExpenseForPatterns sqZero 0 calFixed netflix1 [netflix0, netflix1] st0 = st0
    ∧ (analyzeExpenseForPatterns sqZero 0 calFixed netflix1 [netflix0, netflix1] st0).suggestions
        = [] := by
  have h : analyzeExpenseForPatterns sqZero 0 calFixed netflix1 [netflix0, netflix1] st0
      = st0 := by
    simp only [analyzeExpenseForPatterns, findSimilar_netflix2]
    rw [if_neg (by norm_num : ¬ ([netflix0] : List Expense).length ≥ 2)]
  exact ⟨h, by rw [h]; rfl⟩

/-- C1 (amended): the same series needs one more point — with two identical
"Netflix" expenses 30 days apart already in the history, `analyze` on a
third identical expense another 30 days later stores exactly one suggestion,
whose pattern has frequency monthly and confidence above 0.6. -/
theorem analyze_three_netflix_C1 :
    (analyzeExpenseForPatterns sqZero 0 calFixed netflix2 [netflix0, netflix1, netflix2]
          st0).suggestions
        = [{ id := 1, expense := netflix2, pattern := netflixPatternAt 0, confidence := 1 }]
    ∧ (netflixPatternAt 0).frequency = RecurringFrequency.monthly
    ∧ (netflixPatternAt 0).confidence > 0.6 := by
  refine ⟨?_, rfl, by norm_num [netflixPatternAt]⟩
  rw [analyze_netflix_step st0 (by simp [st0])]
  norm_num [st0]

/-- C2: the code draws a fresh `UUID()` for every rebuilt pattern, so the
id-based duplicate check never fires — analysing the same Netflix series
twice stores two patterns for the one logical series (title "Netflix",
category "Entertainment"). -/
theorem duplicate_patterns_C2 :
    ((analyzeExpenseForPatterns sqZero 0 calFixed netflix2 [netflix0, netflix1, netflix2]
          (analyzeExpenseForPatterns sqZero 0 calFixed netflix2 [netflix0, netflix1, netflix2]
            st0)).detectedPatterns.map fun p => (p.title, p.category))
      = [("Netflix", "Entertainment"), ("Netflix", "Entertainment")] := by
  rw [analyze_netflix_step st0 (by simp [st0])]
  rw [analyze_netflix_step _ (by norm_num [netflixPatternAt, st0])]
  norm_num [netflixPatternAt, st0]

/-- C6 witness: the general statement at the concrete Netflix trio, fixed
calendar and zero square root. -/
theorem nextPredicted_one_unit_witness_C6 :
    (netflixPatternAt 0).nextPredicted
        = advanceOneUnit calFixed (netflixPatternAt 0).frequency (netflixPatternAt 0).lastOccurrence
    ∧ ((netflixPatternAt 0).nextPredicted = none
        ↔ (netflixPatternAt 0).frequency = RecurringFrequency.unknown) :=
  nextPredicted_one_unit_C6 sqZero 0 calFixed 0 netflix2 [netflix0, netflix1]
    (netflixPatternAt 0)
    (by
      intro x hx
      simp only [List.mem_cons, List.not_mem_nil, or_false] at hx
      rcases hx with rfl | rfl | rfl <;> rfl)
    (detectPattern_netflix 0)

end SpendingTracker
